import Mathlib

/-!
Verification of the device-gateway drivers in `iot_driver_copilot`:
shallow Lean embeddings of the JSON-RPC client dispatch, correlation-id
generation, delimiter framing codec, session store, and command
dispatcher logic found in the Python `driver.py` files, together with
theorems about them.
-/

/-- JSON values as decoded by Python's `json.loads`. Numbers are modelled
as integers (the numeric carrier is irrelevant to every property below). -/
inductive Json where
  | null : Json
  | bool : Bool → Json
  | num : Int → Json
  | str : String → Json
  | arr : List Json → Json
  | obj : List (String × Json) → Json

/-- Field lookup in a decoded JSON object, mirroring Python's
`dict.__getitem__` / key search (dict keys are unique). -/
def jfind : List (String × Json) → String → Option Json
  | [], _ => none
  | (k, v) :: rest, key => if k = key then some v else jfind rest key

/-- Python `dict.get(key)`: a missing key and a key holding JSON `null`
both come back as Python `None`, which is `Json.null` here. -/
def jgetD (fields : List (String × Json)) (key : String) : Json :=
  (jfind fields key).getD Json.null

/-- Python truthiness of a decoded JSON value (`None`, `False`, `0`, `""`,
`[]`, `{}` are falsy). -/
def jtruthy : Json → Bool
  | Json.null => false
  | Json.bool b => b
  | Json.num n => n != 0
  | Json.str s => s != ""
  | Json.arr xs => !xs.isEmpty
  | Json.obj fs => !fs.isEmpty

/-- Outcome of one JSON-RPC client invocation once the HTTP/TCP response
body has been decoded. -/
inductive RpcOutcome where
  | ok : Json → RpcOutcome
  | protocolError : Nat → Json → RpcOutcome
  | malformed : Nat → String → RpcOutcome

/-- Whether an invocation outcome is a normal (non-failing) return. -/
def RpcOutcome.isOk : RpcOutcome → Bool
  | RpcOutcome.ok _ => true
  | _ => false

/-- Whether an invocation outcome is a protocol-level failure (an
HTTPException raised because the decoded response carried `error`). -/
def RpcOutcome.isProtocolError : RpcOutcome → Bool
  | RpcOutcome.protocolError _ _ => true
  | _ => false

/-- Dispatch step shared by `jsonrpc_request`
(siemens_simatic_s_7_200_smart/driver.py, lines 45-47) and
`AuboJsonRpcClient.call` (AUBO Robot/driver.py, lines 46-48): if the
decoded object has an `error` field, raise an HTTPException whose detail
is that error object (status 400 resp. 500); otherwise return
`data.get("result")`. -/
def jsonrpcDispatch (status : Nat) (data : List (String × Json)) : RpcOutcome :=
  match jfind data "error" with
  | some e => RpcOutcome.protocolError status e
  | none => RpcOutcome.ok (jgetD data "result")

/-- `AuboJsonRpcClient.call` response handling (AUBO Robot/driver.py,
lines 42-48): `resp.json()` failing to parse (`parseResult = none`)
raises HTTPException 502 "Invalid response from robot"; otherwise the
error/result dispatch runs with status 500.  The request id is never
consulted while handling the response. -/
def auboClientCallOutcome (_reqId : Nat) (parseResult : Option (List (String × Json))) :
    RpcOutcome :=
  match parseResult with
  | none => RpcOutcome.malformed 502 "Invalid response from robot"
  | some data => jsonrpcDispatch 500 data

/-- `RTDEClient._send_jsonrpc` response handling (AUBO Robot Arm/driver.py,
lines 35-39): the parsed object is returned whole — result and error
responses alike — and a parse failure returns (not raises) the dict
`{"error": "Malformed response", "raw": txt}`.  The function never fails
on response content, so its outcome is always `RpcOutcome.ok`. -/
def rtdeSendOutcome (_reqId : Nat) (parseResult : Option Json) (raw : String) : RpcOutcome :=
  match parseResult with
  | some j => RpcOutcome.ok j
  | none => RpcOutcome.ok (Json.obj [("error", Json.str "Malformed response"),
      ("raw", Json.str raw)])

/-- `aubo_jsonrpc_call` response handling (AUBO Robotic Arm/driver.py,
lines 46-50): the first newline-separated line is parsed; an empty line
or a `json.loads` failure raises (`parseResult = none` covers both), and
a parsed object is returned whole, its `id` field never compared with
the request id. -/
def auboJsonrpcReturn (_reqId : Nat) (parseResult : Option Json) : Except String Json :=
  match parseResult with
  | none => Except.error "No response from robot / json.loads failure"
  | some j => Except.ok j

/-- Correlation id used by `RTDEClient._send_jsonrpc`
(AUBO Robot Arm/driver.py, line 18) in its k-th invocation: the local
`request_id = 1` is re-created on every call, so every request carries
id 1. -/
def rtdeRequestId (_k : Nat) : Nat := 1

/-- The id placed in the k-th call (0-indexed) of one `AuboJsonRpcClient`
(AUBO Robot/driver.py, lines 22-32): `self._id` starts at 1 and is
incremented by 1 after each request is built. -/
def auboClientIdOfCall : Nat → Nat
  | 0 => 1
  | k + 1 => auboClientIdOfCall k + 1

/-- The k-th value (0-indexed) yielded by the `_rpc_id_gen` generator
(AUBO Robotic Arm/driver.py, lines 15-20): `n` starts at 1 and is
incremented after each yield. -/
def rpcIdGen : Nat → Nat
  | 0 => 1
  | k + 1 => rpcIdGen k + 1

/-- The newline delimiter byte used by the delimiter-terminated framing. -/
def delimByte : Nat := 10

/-- ASCII bytes stripped by Python's `str.strip()` (the whitespace
characters relevant at byte level: tab, LF, VT, FF, CR, space). -/
def isPyWhitespace (b : Nat) : Bool :=
  b == 9 || b == 10 || b == 11 || b == 12 || b == 13 || b == 32

/-- Python `str.strip()` at byte level: drop whitespace from both ends. -/
def pyStrip (s : List Nat) : List Nat :=
  ((s.dropWhile isPyWhitespace).reverse.dropWhile isPyWhitespace).reverse

/-- Delimiter-terminated frame encoder used by all three TCP drivers:
the serialized payload followed by a single `\n` byte
(AUBO Robot Arm/driver.py line 25, AUBO Robotic Arm/driver.py line 37,
aubo_robot_system/driver.py line 25). -/
def encodeDelim (payload : List Nat) : List Nat := payload ++ [delimByte]

/-- The bytes of the received buffer before its first newline, mirroring
`resp.decode('utf-8').split('\n')[0]` (AUBO Robotic Arm/driver.py,
line 47). -/
def firstLine (s : List Nat) : List Nat := s.takeWhile (fun b => b != delimByte)

/-- Byte-level decode of `aubo_jsonrpc_call` (AUBO Robotic Arm/driver.py,
line 47): take the bytes before the first newline, then `strip()` them. -/
def decodeAuboLine (s : List Nat) : List Nat := pyStrip (firstLine s)

/-- Byte-level decode of `RTDEClient._send_jsonrpc`
(AUBO Robot Arm/driver.py, line 35) and of `tcp_send_recv`
(aubo_robot_system/driver.py, line 35): `data.decode('utf-8').strip()` —
the whole accumulated buffer is stripped, with no split at the first
delimiter. -/
def decodeStripWhole (s : List Nat) : List Nat := pyStrip s

/-- One stored session in the gateway's in-memory `sessions` dict
(siemens_simatic_s_7_200_smart/driver.py, line 70):
`{"token": token, "username": username}`. -/
structure SessionData where
  token : Json
  username : Json

/-- The in-memory session store `sessions` (dict keys are unique; the
store is modelled as an association list whose update operations keep
each key at most once). -/
def SessionStore : Type := List (String × SessionData)

/-- Key lookup in the session store (`session_id in sessions` /
`sessions[session_id]`). -/
def sessFind : SessionStore → String → Option SessionData
  | [], _ => none
  | (k, v) :: rest, key => if k = key then some v else sessFind rest key

/-- `require_session` followed by `get_auth_token`
(siemens_simatic_s_7_200_smart/driver.py, lines 26-29 and 49-53): a
missing/empty `X-Session-Id` header or an unknown id raises 401
"Session not found."; otherwise the stored device token is returned.
The absent-header case is modelled by the empty string, which is falsy
in Python like a missing header. -/
def resolveToken (store : SessionStore) (sid : String) : Except Nat Json :=
  if sid = "" then Except.error 401
  else
    match sessFind store sid with
    | some s => Except.ok s.token
    | none => Except.error 401

/-- `logout` (siemens_simatic_s_7_200_smart/driver.py, lines 73-83): when
the header holds a truthy id that is in the store, best-effort notify the
device (its failure is swallowed) and delete the entry; in every case
respond 200 with `{"message": "Logged out"}`. -/
def logoutApply (store : SessionStore) (sid : String) : SessionStore × Json :=
  if sid != "" && (sessFind store sid).isSome then
    (store.filter (fun p => p.1 != sid), Json.obj [("message", Json.str "Logged out")])
  else
    (store, Json.obj [("message", Json.str "Logged out")])

/-- Credential extraction in `login`
(siemens_simatic_s_7_200_smart/driver.py, lines 57-64): an unreadable or
absent body becomes `{}`; `body.get("username", DEVICE_USER)` substitutes
the environment default only when the key is absent; a falsy username or
password is rejected with 400 "Username and password required". -/
def loginCreds (body : Option (List (String × Json))) (deviceUser devicePass : String) :
    Except (Nat × String) (Json × Json) :=
  let b := body.getD []
  let username := (jfind b "username").getD (Json.str deviceUser)
  let password := (jfind b "password").getD (Json.str devicePass)
  if jtruthy username && jtruthy password then Except.ok (username, password)
  else Except.error (400, "Username and password required")

/-- Outcome of the `login` endpoint: a 200 response body, or an
HTTPException with status and detail. -/
inductive LoginOutcome where
  | success : Json → LoginOutcome
  | failure : Nat → Json → LoginOutcome

/-- Whether a login outcome is the 200 success response. -/
def LoginOutcome.isSuccess : LoginOutcome → Bool
  | LoginOutcome.success _ => true
  | _ => false

/-- The remainder of `login` after credentials are accepted
(siemens_simatic_s_7_200_smart/driver.py, lines 65-71), as a function of
the device's reply to `invoke("login", ...)`.  A device `error` reply
makes `jsonrpc_request` raise HTTPException 400 with that error as
detail, which propagates out of `login`.  On a `result` reply,
`result.get("token")` (a falsy token raises 401 "Authentication
failed"); a non-dict result makes `result.get` raise AttributeError,
an internal (500) error.  Only the branch minting a session touches the
store; `freshSid` stands for the freshly generated `uuid4` string. -/
def loginRpcStep (store : SessionStore) (username : Json) (deviceResp : Except Json Json)
    (freshSid : String) : SessionStore × LoginOutcome :=
  match deviceResp with
  | Except.error e => (store, LoginOutcome.failure 400 e)
  | Except.ok result =>
    match result with
    | Json.obj fs =>
      let token := jgetD fs "token"
      if jtruthy token then
        ((freshSid, ⟨token, username⟩) :: store,
         LoginOutcome.success (Json.obj [("session_id", Json.str freshSid), ("token", token)]))
      else
        (store, LoginOutcome.failure 401 (Json.str "Authentication failed"))
    | _ => (store, LoginOutcome.failure 500 Json.null)

/-- Result of one inbound HTTP command at the dispatcher: either an
immediate client-error response, or a JSON-RPC call sent to the device
with the given method and params. -/
inductive HttpOut where
  | clientError : Nat → String → HttpOut
  | deviceCall : String → Json → HttpOut

/-- Whether the dispatcher answered with a client error (no device I/O). -/
def HttpOut.isClientError : HttpOut → Bool
  | HttpOut.clientError _ _ => true
  | _ => false

/-- Whether the dispatcher went on to contact the device. -/
def HttpOut.contactsDevice : HttpOut → Bool
  | HttpOut.deviceCall _ _ => true
  | _ => false

/-- Python's `isinstance(j, (int, float))` on a decoded JSON value.
`bool` is a subclass of `int` in Python, so JSON `true`/`false` pass
this test. -/
def pyIsNumber : Json → Bool
  | Json.num _ => true
  | Json.bool _ => true
  | _ => false

/-- The `joints` validation of the `/traj` handler
(AUBO Robotic Arm/driver.py, line 153):
`isinstance(joints, list) and all(isinstance(j, (int, float)) for j in joints)`. -/
def pyValidJoints : Json → Bool
  | Json.arr xs => xs.all pyIsNumber
  | _ => false

/-- Modelled from the spec's constraint table wording, for comparison
with the code's check: "`traj` requires `joints: sequence of number`" —
a JSON array each of whose elements is a number (JSON booleans are not
numbers). -/
def specIsNumber : Json → Bool
  | Json.num _ => true
  | _ => false

/-- Modelled from the spec: `joints` is valid iff it is a sequence of
numbers. -/
def specValidJoints : Json → Bool
  | Json.arr xs => xs.all specIsNumber
  | _ => false

/-- Whether a JSON value is Python `None` after `dict.get` (JSON null or
missing key both yield it). -/
def jisNull : Json → Bool
  | Json.null => true
  | _ => false

/-- Python `j == s` for a string literal `s` (non-strings never equal a
string). -/
def jisStr (j : Json) (s : String) : Bool :=
  match j with
  | Json.str t => t == s
  | _ => false

/-- The `/traj` branch of `do_POST` (AUBO Robotic Arm/driver.py, lines
148-164): an absent/unparseable body becomes `{}` via `(data or {})`;
`joints` failing the list-of-numbers check answers 400 before any TCP
contact; otherwise `robot_execute_traj` issues the JSON-RPC call
`execute_trajectory` with `speed`/`accel` defaulting to 1.0. -/
def handleTraj (data : Option (List (String × Json))) : HttpOut :=
  let b := data.getD []
  let joints := jgetD b "joints"
  let speed := (jfind b "speed").getD (Json.num 1)
  let accel := (jfind b "accel").getD (Json.num 1)
  if pyValidJoints joints then
    HttpOut.deviceCall "execute_trajectory"
      (Json.obj [("joints", joints), ("speed", speed), ("accel", accel)])
  else
    HttpOut.clientError 400 "Missing or invalid 'joints': must be a list of numbers"

/-- The `/io` handler `io_control` (AUBO Robot/driver.py, lines 64-105):
an unparseable body answers 400 "Invalid JSON"; `action` outside
read/write, `type` outside digital/analog, or a missing `channel`
answers 400 "Missing required fields"; a write without `value` answers
400; every other case reaches `robot.call` with the mapped method. -/
def ioControl (body : Option (List (String × Json))) : HttpOut :=
  match body with
  | none => HttpOut.clientError 400 "Invalid JSON"
  | some b =>
    let action := jgetD b "action"
    let ioType := jgetD b "type"
    let channel := jgetD b "channel"
    let value := jgetD b "value"
    if !(jisStr action "read" || jisStr action "write")
        || !(jisStr ioType "digital" || jisStr ioType "analog")
        || jisNull channel then
      HttpOut.clientError 400 "Missing required fields"
    else if jisStr action "read" then
      HttpOut.deviceCall (if jisStr ioType "digital" then "readDigitalIO" else "readAnalogIO")
        (Json.obj [("channel", channel)])
    else if jisNull value then
      HttpOut.clientError 400 "Missing 'value' for write action"
    else
      HttpOut.deviceCall (if jisStr ioType "digital" then "writeDigitalIO" else "writeAnalogIO")
        (Json.obj [("channel", channel), ("value", value)])

theorem auboClientIdOfCall_eq (k : Nat) : auboClientIdOfCall k = k + 1 := by
  induction k with
  | zero => rfl
  | succ n ih => simp [auboClientIdOfCall, ih]

theorem rpcIdGen_eq (k : Nat) : rpcIdGen k = k + 1 := by
  induction k with
  | zero => rfl
  | succ n ih => simp [rpcIdGen, ih]

theorem firstLine_append_delim (p post : List Nat) (h : ∀ b ∈ p, b ≠ delimByte) :
    firstLine (p ++ delimByte :: post) = p := by
  induction p with
  | nil => simp [firstLine, List.takeWhile]
  | cons a t ih =>
    have ha : a ≠ delimByte := h a (List.mem_cons_self a t)
    have ht : firstLine (t ++ delimByte :: post) = t :=
      ih (fun b hb => h b (List.mem_cons_of_mem a hb))
    simp only [firstLine, List.cons_append, List.takeWhile_cons] at ht ⊢
    simp [bne_iff_ne, ha, ht]

/-- C4 (counterexample): `RTDEClient._send_jsonrpc` rebuilds
`request_id = 1` on every call, so the ids of the first two invocations
are both 1 — the id sequence is not strictly increasing across
invocations. -/
theorem c4_rtde_constant_id_cex :
    rtdeRequestId 0 = 1 ∧ rtdeRequestId 1 = 1 ∧ ¬ rtdeRequestId 0 < rtdeRequestId 1 := by
  decide

/-- C4 (amended): `AuboJsonRpcClient` (`self._id` incremented per call)
and the `_rpc_id_gen` generator issue strictly increasing correlation
ids 1, 2, 3, …, while `RTDEClient._send_jsonrpc` places the constant
id 1 in every request. -/
theorem c4_id_generation (k m : Nat) (hkm : k < m) :
    auboClientIdOfCall k < auboClientIdOfCall m ∧ rpcIdGen k < rpcIdGen m ∧
    rtdeRequestId k = 1 := by
  rw [auboClientIdOfCall_eq, auboClientIdOfCall_eq, rpcIdGen_eq, rpcIdGen_eq]
  exact ⟨by omega, by omega, rfl⟩

/-- C4 witness: call 0 and call 1 of the counting clients. -/
theorem c4_id_generation_witness :
    auboClientIdOfCall 0 < auboClientIdOfCall 1 ∧ rpcIdGen 0 < rpcIdGen 1 :=
  ⟨(c4_id_generation 0 1 (by decide)).1, (c4_id_generation 0 1 (by decide)).2.1⟩

/-- C5 (counterexample): the one-byte payload consisting of the newline
delimiter itself does not survive the encode/decode round trip of the
delimiter-terminated codec — decoding yields the empty payload. -/
theorem c5_roundtrip_cex :
    decodeAuboLine (encodeDelim [delimByte]) = [] ∧ ([] : List Nat) ≠ [delimByte] := by
  exact ⟨rfl, by decide⟩

/-- C5 (amended): encoding then decoding under the delimiter-terminated
codec restores the payload exactly for every payload that contains no
delimiter byte and is invariant under Python's `strip()` — which holds
for every serialized JSON-RPC message the drivers produce. -/
theorem c5_roundtrip (p : List Nat) (hnd : ∀ b ∈ p, b ≠ delimByte)
    (hstrip : pyStrip p = p) : decodeAuboLine (encodeDelim p) = p := by
  have : encodeDelim p = p ++ delimByte :: [] := rfl
  rw [decodeAuboLine, this, firstLine_append_delim p [] hnd, hstrip]

/-- C5 witness: the bytes of `{"a"}` round-trip. -/
theorem c5_roundtrip_witness :
    decodeAuboLine (encodeDelim [123, 34, 97, 34, 125]) = [123, 34, 97, 34, 125] :=
  c5_roundtrip [123, 34, 97, 34, 125] (by decide) (by decide)

/-- C6 (counterexample): the decode step of `RTDEClient._send_jsonrpc`
and `tcp_send_recv` strips and keeps the whole accumulated buffer: on
the buffer `A\nB\n` it produces `A\nB`, not the bytes `A` before the
first delimiter — trailing bytes are retained, not discarded. -/
theorem c6_strip_whole_cex :
    decodeStripWhole [65, delimByte, 66, delimByte] = [65, delimByte, 66] ∧
    [65, delimByte, 66] ≠ [65] := by
  exact ⟨rfl, by decide⟩

/-- C6 (amended): only `aubo_jsonrpc_call` splits at the first delimiter:
for every buffer made of a delimiter-free, strip-invariant payload, one
newline, and arbitrary trailing bytes, its decode returns exactly the
payload and discards everything after the first delimiter. -/
theorem c6_first_delim_split (pre post : List Nat) (h1 : ∀ b ∈ pre, b ≠ delimByte)
    (h2 : pyStrip pre = pre) : decodeAuboLine (pre ++ delimByte :: post) = pre := by
  rw [decodeAuboLine, firstLine_append_delim pre post h1, h2]

/-- C6 witness: `{}` followed by a newline and a trailing garbage byte
decodes to `{}`. -/
theorem c6_first_delim_split_witness :
    decodeAuboLine ([123, 125] ++ delimByte :: [66]) = [123, 125] :=
  c6_first_delim_split [123, 125] [66] (by decide) (by decide)

/-- C1 (counterexample): `RTDEClient._send_jsonrpc` handed a decoded
response that carries an `error` field returns it whole as a normal
value — the invocation does not fail with a protocol error. -/
theorem c1_rtde_error_returned_cex :
    (rtdeSendOutcome 1
      (some (Json.obj [("error", Json.obj [("code", Json.num 1), ("message", Json.str "boom")])]))
      "").isOk = true ∧
    (rtdeSendOutcome 1
      (some (Json.obj [("error", Json.obj [("code", Json.num 1), ("message", Json.str "boom")])]))
      "").isProtocolError = false := by
  exact ⟨rfl, rfl⟩

/-- C1 (amended): for `jsonrpc_request` (status 400) and
`AuboJsonRpcClient.call` (status 500), a decoded response with an
`error` field raises an HTTPException whose detail is that very error
object (so its code and message reach the caller verbatim), and a
response without one returns `data.get("result")` normally. -/
theorem c1_result_error_dispatch (status : Nat) (data : List (String × Json)) :
    (∀ e, jfind data "error" = some e →
      jsonrpcDispatch status data = RpcOutcome.protocolError status e) ∧
    (jfind data "error" = none →
      jsonrpcDispatch status data = RpcOutcome.ok (jgetD data "result")) := by
  constructor
  · intro e he
    simp [jsonrpcDispatch, he]
  · intro hn
    simp [jsonrpcDispatch, hn]

/-- C1 witness: a concrete error reply and a concrete result reply. -/
theorem c1_result_error_dispatch_witness :
    jsonrpcDispatch 400 [("error", Json.str "e")] = RpcOutcome.protocolError 400 (Json.str "e") ∧
    jsonrpcDispatch 500 [("result", Json.num 7)] = RpcOutcome.ok (Json.num 7) :=
  ⟨(c1_result_error_dispatch 400 [("error", Json.str "e")]).1 (Json.str "e") rfl,
   (c1_result_error_dispatch 500 [("result", Json.num 7)]).2 rfl⟩

/-- C3 (counterexample): no client compares the response id with the
outstanding request id: `AuboJsonRpcClient.call` with request id 1
given a well-formed response carrying id 999 returns its result as a
normal success instead of failing with MalformedResponse. -/
theorem c3_id_not_checked_cex :
    auboClientCallOutcome 1 (some [("id", Json.num 999), ("result", Json.num 5)]) =
      RpcOutcome.ok (Json.num 5) ∧ (999 : Int) ≠ 1 := by
  exact ⟨rfl, by decide⟩

/-- C3 (amended): an unparseable payload does fail the call
(`AuboJsonRpcClient.call` raises 502, `aubo_jsonrpc_call` raises), but
the response id is never consulted: the outcome of both clients is
entirely independent of the outstanding request's id. -/
theorem c3_malformed_and_id_independence :
    (∀ reqId : Nat,
      auboClientCallOutcome reqId none = RpcOutcome.malformed 502 "Invalid response from robot") ∧
    (∀ reqId : Nat,
      auboJsonrpcReturn reqId none =
        Except.error "No response from robot / json.loads failure") ∧
    (∀ reqIdA reqIdB : Nat, ∀ p, auboClientCallOutcome reqIdA p = auboClientCallOutcome reqIdB p) ∧
    (∀ reqIdA reqIdB : Nat, ∀ p, auboJsonrpcReturn reqIdA p = auboJsonrpcReturn reqIdB p) :=
  ⟨fun _ => rfl, fun _ => rfl, fun _ _ _ => rfl, fun _ _ _ => rfl⟩

theorem sessFind_filter_ne (st : SessionStore) (sid : String) :
    sessFind (st.filter (fun p => p.1 != sid)) sid = none := by
  induction st with
  | nil => rfl
  | cons hd tl ih =>
    by_cases hk : hd.1 = sid
    · simp [List.filter, hk, ih]
    · have hbne : (hd.1 != sid) = true := by simp [bne_iff_ne, hk]
      simp [List.filter, hbne, sessFind, hk, ih]

/-- C2: session lifecycle of the siemens gateway. A successful login
(device reply carrying a truthy token) stores the session under the
fresh id, and resolving that id yields the stored device token; after
`logout(sid)` on any store, resolving `sid` fails 401 (SessionNotFound);
and `logout` on an id absent from the store leaves the store unchanged
and still answers the 200 "Logged out" message. -/
theorem c2_session_lifecycle (store : SessionStore) (username tok : Json)
    (fs : List (String × Json)) (sid : String) (hsid : sid ≠ "")
    (htok : jfind fs "token" = some tok) (htr : jtruthy tok = true) :
    resolveToken (loginRpcStep store username (Except.ok (Json.obj fs)) sid).1 sid =
      Except.ok tok ∧
    (loginRpcStep store username (Except.ok (Json.obj fs)) sid).2.isSuccess = true ∧
    (∀ st : SessionStore, resolveToken (logoutApply st sid).1 sid = Except.error 401) ∧
    (∀ st : SessionStore, sessFind st sid = none →
      logoutApply st sid = (st, Json.obj [("message", Json.str "Logged out")])) := by
  have hstep : loginRpcStep store username (Except.ok (Json.obj fs)) sid =
      ((sid, ⟨tok, username⟩) :: store,
       LoginOutcome.success (Json.obj [("session_id", Json.str sid), ("token", tok)])) := by
    simp [loginRpcStep, jgetD, htok, htr]
  refine ⟨?_, ?_, ?_, ?_⟩
  · rw [hstep]
    simp [resolveToken, hsid, sessFind]
  · rw [hstep]
    rfl
  · intro st
    by_cases hmem : (sessFind st sid).isSome
    · have : logoutApply st sid =
          (st.filter (fun p => p.1 != sid), Json.obj [("message", Json.str "Logged out")]) := by
        simp [logoutApply, bne_iff_ne, hsid, hmem]
      rw [this]
      simp [resolveToken, hsid, sessFind_filter_ne]
    · have hnone : sessFind st sid = none := by
        cases h : sessFind st sid with
        | none => rfl
        | some v => rw [h] at hmem; simp at hmem
      have : logoutApply st sid = (st, Json.obj [("message", Json.str "Logged out")]) := by
        simp [logoutApply, hnone]
      rw [this]
      simp [resolveToken, hsid, hnone]
  · intro st hnone
    simp [logoutApply, hnone]

/-- C2 witness: a concrete login / resolve / logout sequence. -/
theorem c2_session_lifecycle_witness :
    resolveToken
      (loginRpcStep [] (Json.str "u") (Except.ok (Json.obj [("token", Json.str "devtok")]))
        "sid1").1 "sid1" = Except.ok (Json.str "devtok") ∧
    resolveToken (logoutApply [("sid1", ⟨Json.str "devtok", Json.str "u"⟩)] "sid1").1 "sid1" =
      Except.error 401 ∧
    logoutApply [] "sid1" = ([], Json.obj [("message", Json.str "Logged out")]) := by
  have h := c2_session_lifecycle [] (Json.str "u") (Json.str "devtok")
    [("token", Json.str "devtok")] "sid1" (by decide) rfl rfl
  exact ⟨h.1, h.2.2.1 [("sid1", ⟨Json.str "devtok", Json.str "u"⟩)], h.2.2.2 [] rfl⟩

/-- C8 (counterexample): when the device denies the credentials with a
JSON-RPC `error` reply, `login` propagates the HTTPException 400 raised
inside `jsonrpc_request` — a client error rather than the claimed 401
unauthorized condition (the store is still left untouched). -/
theorem c8_denied_is_400_cex :
    loginRpcStep [] (Json.str "u")
      (Except.error (Json.obj [("code", Json.num (-32000)), ("message", Json.str "denied")]))
      "s" =
      ([], LoginOutcome.failure 400
        (Json.obj [("code", Json.num (-32000)), ("message", Json.str "denied")])) ∧
    (400 : Nat) ≠ 401 := by
  exact ⟨rfl, by decide⟩

/-- C8 (amended): a device reply whose result carries no (truthy) token
makes `login` fail 401 "Authentication failed", and a device `error`
reply makes it fail with the 400 protocol error from `jsonrpc_request`;
in both failure cases the session store is unchanged — no session is
added. -/
theorem c8_login_failure (store : SessionStore) (username : Json) (sid : String) :
    (∀ e, loginRpcStep store username (Except.error e) sid =
      (store, LoginOutcome.failure 400 e)) ∧
    (∀ fs, jtruthy (jgetD fs "token") = false →
      loginRpcStep store username (Except.ok (Json.obj fs)) sid =
        (store, LoginOutcome.failure 401 (Json.str "Authentication failed"))) := by
  constructor
  · intro e
    rfl
  · intro fs hf
    simp [loginRpcStep, hf]

/-- C8 witness: a token-less device reply on the empty store. -/
theorem c8_login_failure_witness :
    loginRpcStep [] (Json.str "u") (Except.ok (Json.obj [("ok", Json.bool true)])) "s" =
      ([], LoginOutcome.failure 401 (Json.str "Authentication failed")) :=
  (c8_login_failure [] (Json.str "u") "s").2 [("ok", Json.bool true)] rfl

/-- C9: a missing/unparseable login body (or one omitting both fields)
draws the credentials from the environment defaults, succeeding exactly
when both defaults are nonempty and failing 400 otherwise; a body
omitting only the username substitutes the default username next to the
supplied password. -/
theorem c9_default_credentials (deviceUser devicePass : String)
    (b : List (String × Json)) (hu : jfind b "username" = none)
    (hp : jfind b "password" = none) :
    loginCreds (some b) deviceUser devicePass = loginCreds none deviceUser devicePass ∧
    (deviceUser ≠ "" → devicePass ≠ "" →
      loginCreds none deviceUser devicePass =
        Except.ok (Json.str deviceUser, Json.str devicePass)) ∧
    (deviceUser = "" ∨ devicePass = "" →
      loginCreds none deviceUser devicePass =
        Except.error (400, "Username and password required")) ∧
    (∀ pw : Json, jtruthy pw = true → deviceUser ≠ "" →
      loginCreds (some [("password", pw)]) deviceUser devicePass =
        Except.ok (Json.str deviceUser, pw)) := by
  refine ⟨?_, ?_, ?_, ?_⟩
  · simp [loginCreds, hu, hp, jfind]
  · intro h1 h2
    simp [loginCreds, jfind, jtruthy, h1, h2]
  · intro h
    rcases h with h | h <;> simp [loginCreds, jfind, jtruthy, h]
  · intro pw hpw hdu
    have h1 : jtruthy (Json.str deviceUser) = true := by simp [jtruthy, hdu]
    simp [loginCreds, jfind, h1, hpw]

/-- C9 witness: nonempty defaults are substituted; an empty default
username is rejected 400. -/
theorem c9_default_credentials_witness :
    loginCreds none "admin" "pw" = Except.ok (Json.str "admin", Json.str "pw") ∧
    loginCreds none "" "pw" = Except.error (400, "Username and password required") ∧
    loginCreds (some [("password", Json.str "secret")]) "admin" "pw" =
      Except.ok (Json.str "admin", Json.str "secret") := by
  have h1 := c9_default_credentials "admin" "pw" [] rfl rfl
  have h2 := c9_default_credentials "" "pw" [] rfl rfl
  exact ⟨h1.2.1 (by decide) (by decide), h2.2.2.1 (Or.inl rfl),
    h1.2.2.2 (Json.str "secret") rfl (by decide)⟩

/-- C10: a successful login answers 200 with a body holding both the
freshly minted `session_id` and the raw device token itself — the same
token value that is placed in the session store. -/
theorem c10_token_exposed (store : SessionStore) (username tok : Json)
    (fs : List (String × Json)) (sid : String)
    (htok : jfind fs "token" = some tok) (htr : jtruthy tok = true) :
    (loginRpcStep store username (Except.ok (Json.obj fs)) sid).2 =
      LoginOutcome.success
        (Json.obj [("session_id", Json.str sid), ("token", tok)]) ∧
    (loginRpcStep store username (Except.ok (Json.obj fs)) sid).1 =
      (sid, ⟨tok, username⟩) :: store := by
  have hstep : loginRpcStep store username (Except.ok (Json.obj fs)) sid =
      ((sid, ⟨tok, username⟩) :: store,
       LoginOutcome.success (Json.obj [("session_id", Json.str sid), ("token", tok)])) := by
    simp [loginRpcStep, jgetD, htok, htr]
  rw [hstep]
  exact ⟨rfl, rfl⟩

/-- C10 witness: a concrete successful login exposes the device token. -/
theorem c10_token_exposed_witness :
    (loginRpcStep [] (Json.str "u") (Except.ok (Json.obj [("token", Json.str "devtok")]))
      "sid1").2 =
      LoginOutcome.success
        (Json.obj [("session_id", Json.str "sid1"), ("token", Json.str "devtok")]) :=
  (c10_token_exposed [] (Json.str "u") (Json.str "devtok") [("token", Json.str "devtok")]
    "sid1" rfl rfl).1

theorem jisStr_eq {j : Json} {s : String} (h : jisStr j s = true) : j = Json.str s := by
  cases j with
  | str t =>
    simp only [jisStr, beq_iff_eq] at h
    rw [h]
  | null => simp [jisStr] at h
  | bool b => simp [jisStr] at h
  | num n => simp [jisStr] at h
  | arr xs => simp [jisStr] at h
  | obj fs => simp [jisStr] at h

/-- C7 (counterexample): `/traj` with `joints: [true]` — not a sequence
of numbers per the spec's constraint table — passes the handler's
`isinstance(j, (int, float))` check, because Python's `bool` is an
`int` subclass, and the device is contacted instead of the required 400
fail-fast. -/
theorem c7_bool_joints_cex :
    specValidJoints (Json.arr [Json.bool true]) = false ∧
    handleTraj (some [("joints", Json.arr [Json.bool true])]) =
      HttpOut.deviceCall "execute_trajectory"
        (Json.obj [("joints", Json.arr [Json.bool true]), ("speed", Json.num 1),
          ("accel", Json.num 1)]) ∧
    (handleTraj (some [("joints", Json.arr [Json.bool true])])).contactsDevice = true := by
  exact ⟨rfl, rfl, rfl⟩

/-- C7 (amended): both dispatchers fail fast with a 400 client error —
never reaching the device — on an unparseable `/io` body, on `/io`
commands missing `action`/`channel` (or any invalid action/type value),
on a write without `value`, and on every `/traj` payload whose `joints`
fails the code's list-of-`(int, float)` check; every joints value that
is a sequence of numbers in the spec's sense passes that check, but so
do lists containing Python booleans, which the code forwards instead of
rejecting. -/
theorem c7_dispatcher_validation :
    (∀ data, pyValidJoints (jgetD (data.getD []) "joints") = false →
      handleTraj data =
        HttpOut.clientError 400 "Missing or invalid 'joints': must be a list of numbers") ∧
    (∀ j, specValidJoints j = true → pyValidJoints j = true) ∧
    ioControl none = HttpOut.clientError 400 "Invalid JSON" ∧
    (∀ b, jfind b "action" = none →
      ioControl (some b) = HttpOut.clientError 400 "Missing required fields") ∧
    (∀ b, jfind b "channel" = none →
      ioControl (some b) = HttpOut.clientError 400 "Missing required fields") ∧
    (∀ b, jisStr (jgetD b "action") "write" = true →
      (jisStr (jgetD b "type") "digital" || jisStr (jgetD b "type") "analog") = true →
      jisNull (jgetD b "channel") = false → jfind b "value" = none →
      ioControl (some b) = HttpOut.clientError 400 "Missing 'value' for write action") ∧
    (∀ code msg, (HttpOut.clientError code msg).contactsDevice = false) := by
  refine ⟨?_, ?_, rfl, ?_, ?_, ?_, fun _ _ => rfl⟩
  · intro data hval
    simp [handleTraj, hval]
  · intro j hj
    cases j with
    | arr xs =>
      simp only [specValidJoints, List.all_eq_true] at hj
      simp only [pyValidJoints, List.all_eq_true]
      intro x hx
      have := hj x hx
      cases x <;> simp [specIsNumber, pyIsNumber] at this ⊢
    | null => simp [specValidJoints] at hj
    | bool b => simp [specValidJoints] at hj
    | num n => simp [specValidJoints] at hj
    | str s => simp [specValidJoints] at hj
    | obj fs => simp [specValidJoints] at hj
  · intro b ha
    have : jgetD b "action" = Json.null := by simp [jgetD, ha]
    simp [ioControl, this, jisStr]
  · intro b hc
    have : jgetD b "channel" = Json.null := by simp [jgetD, hc]
    simp [ioControl, this, jisNull]
  · intro b hw ht hc hv
    have haw : jgetD b "action" = Json.str "write" := jisStr_eq hw
    have hvn : jgetD b "value" = Json.null := by simp [jgetD, hv]
    have hread : jisStr (jgetD b "action") "read" = false := by rw [haw]; rfl
    have hnullv : jisNull (jgetD b "value") = true := by rw [hvn]; rfl
    simp [ioControl, hread, hw, ht, hc, hnullv]

/-- C7 witness: a `/traj` body without `joints` and a digital write
without `value` are both rejected 400. -/
theorem c7_dispatcher_validation_witness :
    handleTraj (some []) =
      HttpOut.clientError 400 "Missing or invalid 'joints': must be a list of numbers" ∧
    ioControl (some [("action", Json.str "write"), ("type", Json.str "digital"),
        ("channel", Json.num 3)]) =
      HttpOut.clientError 400 "Missing 'value' for write action" :=
  ⟨c7_dispatcher_validation.1 (some []) rfl,
   c7_dispatcher_validation.2.2.2.2.2.1
     [("action", Json.str "write"), ("type", Json.str "digital"), ("channel", Json.num 3)]
     rfl rfl rfl rfl⟩
